import Mathlib

/-!
# Verification of the dgraph `debuginfo` debugging helpers

Shallow embedding of `dgraph/cmd/debuginfo/debugging.go` (package
`debuginfo`): address normalisation (the dual `url.Parse` heuristic),
the two batch collectors `saveProfiles` and `saveMetrics`, the
per-endpoint `saveDebug` fetch-and-save, `fetchURL`, and
`statusCodeError`.

The Go code's only interesting library dependency is `net/url`.  We
model `url.Parse` and `(*URL).String` from the Go standard library
faithfully on the fragment of inputs this utility meets: ASCII strings
without percent-escapes, fragments (`#`), user-info (`@`) or IPv6
bracket hosts.  Control-character rejection, scheme detection, the
opaque/rootless-path rule, the query split, authority/host splitting
with port validation, and the first-segment-colon error are all
modelled as in `net/url`.

Side effects (HTTP requests, file creation, writes, handle
open/close) are modelled as an explicit event trace; the network and
filesystem are an oracle (`WorldEnv`) the functions consume.
-/

namespace Debuginfo

/-! ## Characters and low-level string helpers -/

/-- ASCII letter, as in `net/url.getScheme`'s first switch case. -/
def isSchemeAlpha (c : Char) : Bool :=
  ('a' ≤ c && c ≤ 'z') || ('A' ≤ c && c ≤ 'Z')

/-- ASCII digit. -/
def isAsciiDigit (c : Char) : Bool :=
  '0' ≤ c && c ≤ '9'

/-- A control byte in the sense of `net/url.stringContainsCTLByte`:
below space, or DEL. -/
def isCtl (c : Char) : Bool :=
  c < ' ' || c == Char.ofNat 127

/-- `List.isPrefixOf` written out, to keep the development
self-contained. -/
def prefixOf : List Char → List Char → Bool
  | [], _ => true
  | _ :: _, [] => false
  | a :: as, b :: bs => a == b && prefixOf as bs

/-- Model of Go `strings.Contains` on character lists. -/
def containsSub (sub : List Char) : List Char → Bool
  | [] => prefixOf sub []
  | c :: rest => prefixOf sub (c :: rest) || containsSub sub rest

/-- Model of Go `strings.Contains`. -/
def strContains (s sub : String) : Bool :=
  containsSub sub.toList s.toList

/-- Model of Go `net/url.split(s, sep, cutc)`: cut at the first
occurrence of `sep`; `cutc` says whether `sep` is dropped from the
second half.  When `sep` does not occur, the second half is empty. -/
def urlSplit (sep : Char) (cutc : Bool) : List Char → (List Char × List Char)
  | [] => ([], [])
  | c :: rest =>
    if c == sep then ([], if cutc then rest else c :: rest)
    else
      let (a, b) := urlSplit sep cutc rest
      (c :: a, b)

/-! ## The Go `net/url` model -/

/-- The fields of Go's `url.URL` that this program reads (`Scheme`,
`Host`) or that its `String` method prints (`Opaque` — spelled `opq`
here because `opaque` is a Lean keyword — `Path`, `RawQuery`). -/
structure URL where
  scheme : String := ""
  opq : String := ""
  host : String := ""
  path : String := ""
  rawQuery : String := ""
  deriving Repr, DecidableEq

/-- Model of `net/url.getScheme`: scan for a `scheme:` prefix.  The
accumulator holds the scheme characters seen so far (reversed); it is
empty exactly when Go's index `i` is `0`. -/
def getSchemeGo (orig : List Char) : List Char → List Char → Except String (List Char × List Char)
  | _, [] => .ok ([], orig)
  | acc, c :: rest =>
    if isSchemeAlpha c then
      getSchemeGo orig (c :: acc) rest
    else if isAsciiDigit c || c == '+' || c == '-' || c == '.' then
      if acc.isEmpty then .ok ([], orig) else getSchemeGo orig (c :: acc) rest
    else if c == ':' then
      if acc.isEmpty then .error "missing protocol scheme"
      else .ok (acc.reverse, rest)
    else
      .ok ([], orig)

/-- `net/url.getScheme` on a whole string. -/
def getScheme (s : List Char) : Except String (List Char × List Char) :=
  getSchemeGo s [] s

/-- Model of `net/url.validOptionalPort`: empty, or `:` followed by
decimal digits only. -/
def validOptionalPort : List Char → Bool
  | [] => true
  | c :: rest => c == ':' && rest.all isAsciiDigit

/-- A byte legal in a host component, as in `net/url.shouldEscape`
with `encodeHost`: alphanumerics, the unreserved marks `-_.~`, and the
sub-delims `!$&'()*+,;=:[]<>"`. -/
def isHostChar (c : Char) : Bool :=
  isSchemeAlpha c || isAsciiDigit c ||
  "-_.~!$&'()*+,;=:[]<>\"".toList.contains c

/-- Model of `net/url.parseHost` on the bracket-free, escape-free
subset: if the host contains a colon, the part from the last colon on
must be a valid optional port; every byte must be legal in a host
(the `unescape(host, encodeHost)` validation). -/
def parseHost (host : List Char) : Except String (List Char) :=
  let portOk :=
    match (host.reverse.span (fun c => !(c == ':'))) with
    | (_, []) => true
    | (revPort, _ :: _) => validOptionalPort (':' :: revPort.reverse)
  if !portOk then .error "invalid port after host"
  else if !(host.all isHostChar) then .error "invalid character in host name"
  else .ok host

/-- Model of `net/url.parseAuthority` on the user-info-free subset:
the whole authority is the host. -/
def parseAuthority (authority : List Char) : Except String (List Char) :=
  parseHost authority

/-- Model of `net/url.parse(rawURL, viaRequest := false)` (hence of
`url.Parse` on fragment-free input) on the documented subset:
1. reject control characters;
2. `"*"` is a path;
3. split off a scheme and lower-case it;
4. split off the query at the first `?`;
5. a rootless remainder with a scheme is opaque; without a scheme its
   first segment must not contain a colon;
6. a `//` remainder (not `///` when schemeless) carries an authority,
   parsed into a host with port validation;
7. the rest is the path. -/
def goUrlParseList (rawURL : List Char) : Except String URL :=
  if rawURL.any isCtl then
    .error "net/url: invalid control character in URL"
  else if rawURL == ['*'] then
    .ok { path := "*" }
  else
    match getScheme rawURL with
    | .error e => .error e
    | .ok (schemeCs, afterScheme) =>
      let scheme := (schemeCs.map Char.toLower).asString
      let (rest, query) := urlSplit '?' true afterScheme
      if !(prefixOf ['/'] rest) && scheme != "" then
        .ok { scheme := scheme, opq := rest.asString, rawQuery := query.asString }
      else if !(prefixOf ['/'] rest) && containsSub [':'] (urlSplit '/' true rest).1 then
        .error "first path segment in URL cannot contain colon"
      else if (scheme != "" || !(prefixOf ['/', '/', '/'] rest)) && prefixOf ['/', '/'] rest then
        let (authority, path) := urlSplit '/' false (rest.drop 2)
        match parseAuthority authority with
        | .error e => .error e
        | .ok host =>
          .ok { scheme := scheme, host := host.asString,
                path := path.asString, rawQuery := query.asString }
      else
        .ok { scheme := scheme, path := rest.asString, rawQuery := query.asString }

/-- Model of Go `url.Parse` on strings. -/
def goUrlParse (s : String) : Except String URL :=
  goUrlParseList s.toList

/-- Model of Go `(*url.URL).String()` on the subset (no user-info,
`ForceQuery` or fragment; escaping is the identity on these inputs). -/
def URL.render (u : URL) : String :=
  let head := if u.scheme != "" then u.scheme ++ ":" else ""
  let body :=
    if u.opq != "" then u.opq
    else
      let auth :=
        if u.scheme != "" || u.host != "" then
          (if u.host != "" || u.path != "" then "//" else "") ++ u.host
        else ""
      let slash :=
        if u.path != "" && !(prefixOf ['/'] u.path.toList) && u.host != "" then "/" else ""
      let dotSlash :=
        if head ++ auth ++ slash == "" &&
            containsSub [':'] (urlSplit '/' true u.path.toList).1 then "./"
        else ""
      auth ++ slash ++ dotSlash ++ u.path
  let query := if u.rawQuery != "" then "?" ++ u.rawQuery else ""
  head ++ body ++ query

/-! ## Side-effect model

HTTP responses, the network and the filesystem are oracles supplied by
a `WorldEnv`; every externally visible action of the Go code becomes
an `Event` in a trace.  The Go batch functions return nothing (their
Lean models return only the trace): per-endpoint errors are logged and
swallowed, never returned. -/

/-- `time.Second` in nanoseconds (`time.Duration` counts nanoseconds). -/
def second : Int := 1000000000

/-- The `timeout := duration + duration/2 + 2*time.Second` computation
in `saveDebug`.  Go's integer division truncates toward zero, which is
`Int.tdiv`. -/
def clientTimeout (duration : Int) : Int :=
  duration + Int.tdiv duration 2 + 2 * second

/-- `int(duration.Seconds())` from `saveProfiles`, modelled as
truncating integer division of nanoseconds by `second` (the float64
detour of `Duration.Seconds` is exact at this scale). -/
def durationSeconds (duration : Int) : Int :=
  Int.tdiv duration second

/-- What the program reads off an `*http.Response`: status code,
status line, the two headers `statusCodeError` consults (Go's
`Header.Get` yields `""` for an absent header), whether
`ioutil.ReadAll` on the body succeeds, and the body bytes (kept as a
`String`). -/
structure Response where
  statusCode : Nat
  status : String
  xGoPprof : String
  contentType : String
  readAllOk : Bool
  body : String
  deriving Repr, DecidableEq

/-- The network and filesystem oracle: the outcome of `client.Get`
for a source URL under a timeout, whether `os.Create` succeeds for a
path, and whether `io.Copy` to that path runs to completion. -/
structure WorldEnv where
  fetch : String → Int → Except String Response
  createOk : String → Bool
  copyOk : String → Bool

/-- Externally visible actions.  `closeFile` is in the vocabulary so
that the absence of a close of the output file is expressible; the
code never performs it. -/
inductive Event where
  | request (url : String) (timeoutNs : Int)
  | openBody
  | closeBody
  | openFile (path : String)
  | write (path : String) (content : String)
  | closeFile (path : String)
  deriving Repr, DecidableEq

/-- The URLs requested in a trace, in order. -/
def requestsOf (t : List Event) : List String :=
  t.filterMap fun e =>
    match e with
    | .request u _ => some u
    | _ => none

/-- The `(url, timeout)` pairs of the requests in a trace. -/
def requestTimeoutsOf (t : List Event) : List (String × Int) :=
  t.filterMap fun e =>
    match e with
    | .request u n => some (u, n)
    | _ => none

/-- The `(path, content)` pairs written in a trace. -/
def writesOf (t : List Event) : List (String × String) :=
  t.filterMap fun e =>
    match e with
    | .write p c => some (p, c)
    | _ => none

/-- The output files created (`os.Create`) in a trace. -/
def createsOf (t : List Event) : List String :=
  t.filterMap fun e =>
    match e with
    | .openFile p => some p
    | _ => none

/-- The claim of §5 of the spec, as a trace predicate: the response
body is closed as often as it is opened, and every created file is
closed. -/
def allReleased (t : List Event) : Bool :=
  (t.count Event.openBody == t.count Event.closeBody) &&
  (createsOf t).all fun p => t.contains (Event.closeFile p)

/-! ## The `debuginfo` functions -/

/-- Model of `statusCodeError`: enrich the message with the body when
the `X-Go-Pprof` header is set, the content type contains
`text/plain`, and the body can be read; otherwise just the status
line. -/
def statusCodeError (resp : Response) : String :=
  if resp.xGoPprof != "" && strContains resp.contentType "text/plain" then
    if resp.readAllOk then
      "server response: " ++ resp.status ++ " - " ++ resp.body
    else
      "server response: " ++ resp.status
  else
    "server response: " ++ resp.status

/-- Model of `fetchURL`: one GET with the given timeout; a transport
error yields an `http fetch:` error with no body acquired; a non-`200`
status closes the body (`defer resp.Body.Close()`) and yields
`statusCodeError`; a `200` returns the still-open body. -/
def fetchURL (env : WorldEnv) (source : String) (timeout : Int) :
    List Event × Except String String :=
  match env.fetch source timeout with
  | .error e =>
    ([Event.request source timeout], .error ("http fetch: " ++ e))
  | .ok resp =>
    if resp.statusCode != 200 then
      ([Event.request source timeout, Event.openBody, Event.closeBody],
       .error (statusCodeError resp))
    else
      ([Event.request source timeout, Event.openBody], .ok resp.body)

/-- Model of `saveDebug`: compute the timeout, fetch, then (on
success) `defer resp.Close()`, `os.Create` the dump file and
`io.Copy` the body into it.  The deferred body close runs on every
return path after acquisition; no close of the created file ever
happens, mirroring the code.  A failed copy is modelled as writing
nothing. -/
def saveDebug (env : WorldEnv) (sourceURL filePath : String) (duration : Int) :
    List Event × Option String :=
  let timeout := clientTimeout duration
  match fetchURL env sourceURL timeout with
  | (ev, .error e) => (ev, some e)
  | (ev, .ok body) =>
    if env.createOk filePath then
      if env.copyOk filePath then
        (ev ++ [Event.openFile filePath, Event.write filePath body, Event.closeBody], none)
      else
        (ev ++ [Event.openFile filePath, Event.closeBody], some "io copy error")
    else
      (ev ++ [Event.closeBody], some "error while creating dump file")

/-- The profile source URL built in `saveProfiles`:
`fmt.Sprintf("%s/debug/pprof/%s?duration=%d", u.String(), profileType,
int(duration.Seconds()))`. -/
def profileSource (base : String) (profileType : String) (duration : Int) : String :=
  base ++ "/debug/pprof/" ++ profileType ++ "?duration=" ++ toString (durationSeconds duration)

/-- The metric source URL built in `saveMetrics`:
`fmt.Sprintf("%s/%s", u.String(), metricType)`. -/
def metricSource (base : String) (metricType : String) : String :=
  base ++ "/" ++ metricType

/-- The save path `fmt.Sprintf("%s%s.gz", pathPrefix, name)` shared by
both loops. -/
def savePathOf (pathPrefix name : String) : String :=
  pathPrefix ++ name ++ ".gz"

/-- The address-normalisation prologue of `saveProfiles`: parse;
retry with `http://` prepended when the parse failed or the URL has no
host and a nonempty scheme other than `file`; reject when the final
result is an error or still has no host. -/
def profilesNormalize (addr : String) : Option URL :=
  let r :=
    match goUrlParse addr with
    | .error _ => goUrlParse ("http://" ++ addr)
    | .ok u =>
      if u.host == "" && u.scheme != "" && u.scheme != "file" then
        goUrlParse ("http://" ++ addr)
      else
        .ok u
  match r with
  | .error _ => none
  | .ok u => if u.host == "" then none else some u

/-- The address-normalisation prologue of `saveMetrics` — duplicated
in the source rather than shared, hence transcribed separately. -/
def metricsNormalize (addr : String) : Option URL :=
  let r :=
    match goUrlParse addr with
    | .error _ => goUrlParse ("http://" ++ addr)
    | .ok u =>
      if u.host == "" && u.scheme != "" && u.scheme != "file" then
        goUrlParse ("http://" ++ addr)
      else
        .ok u
  match r with
  | .error _ => none
  | .ok u => if u.host == "" then none else some u

/-- Whether `saveProfiles` takes its `http://`-prepended retry branch:
the condition of `if err != nil || (u.Host == "" && u.Scheme != "" &&
u.Scheme != "file")`. -/
def profilesRetries (addr : String) : Bool :=
  match goUrlParse addr with
  | .error _ => true
  | .ok u => u.host == "" && u.scheme != "" && u.scheme != "file"

/-- The rejection step shared by both prologues: abort on a parse
error or an empty host. -/
def normFinish (r : Except String URL) : Option URL :=
  match r with
  | .error _ => none
  | .ok u => if u.host == "" then none else some u

/-- The per-profile loop body of `saveProfiles`: build the source URL
and save path, run `saveDebug`, log and `continue` on error (logging
is not modelled; the loop reaches every element either way). -/
def saveProfilesLoop (env : WorldEnv) (base pathPrefix : String) (duration : Int) :
    List String → List Event
  | [] => []
  | profileType :: rest =>
    let source := profileSource base profileType duration
    let savePath := savePathOf pathPrefix profileType
    (saveDebug env source savePath duration).1 ++
      saveProfilesLoop env base pathPrefix duration rest

/-- Model of `saveProfiles` (a Go `func` with no return values: the
model returns only the event trace). -/
def saveProfiles (env : WorldEnv) (addr pathPrefix : String) (duration : Int)
    (profiles : List String) : List Event :=
  match profilesNormalize addr with
  | none => []
  | some u => saveProfilesLoop env u.render pathPrefix duration profiles

/-- The per-metric loop body of `saveMetrics`. -/
def saveMetricsLoop (env : WorldEnv) (base pathPrefix : String) (duration : Int) :
    List String → List Event
  | [] => []
  | metricType :: rest =>
    let source := metricSource base metricType
    let savePath := savePathOf pathPrefix metricType
    (saveDebug env source savePath duration).1 ++
      saveMetricsLoop env base pathPrefix duration rest

/-- Model of `saveMetrics` (no return values; trace only). -/
def saveMetrics (env : WorldEnv) (addr pathPrefix : String) (duration : Int)
    (metrics : List String) : List Event :=
  match metricsNormalize addr with
  | none => []
  | some u => saveMetricsLoop env u.render pathPrefix duration metrics

/-- The `pprofProfileTypes` list. -/
def pprofProfileTypes : List String :=
  ["goroutine", "heap", "threadcreate", "block", "mutex", "profile", "trace"]

/-- The `metricTypes` list. -/
def metricTypes : List String :=
  ["jemalloc", "state", "health"]

/-! ## The spec's reading of the fallback condition

The spec describes the retry condition as "parsing fails, or the
parsed URL has no host and either no scheme or a scheme other than
`file`".  This definition follows those words (not the code), for
comparison with `profilesRetries`. -/

/-- Modelled from the spec's sentence: retry when the parse fails, or
the URL has no host and (no scheme, or a scheme other than `file`). -/
def specRetryCondition (addr : String) : Bool :=
  match goUrlParse addr with
  | .error _ => true
  | .ok u => u.host == "" && (u.scheme == "" || u.scheme != "file")

/-! ## Concrete fixtures -/

/-- A plain 200 response with an opaque binary-ish body. -/
def okResponse : Response :=
  { statusCode := 200, status := "200 OK", xGoPprof := "",
    contentType := "application/octet-stream", readAllOk := true,
    body := "PROFILEDATA" }

/-- A world where every fetch returns `okResponse` and the filesystem
cooperates. -/
def happyEnv : WorldEnv :=
  { fetch := fun _ _ => .ok okResponse,
    createOk := fun _ => true, copyOk := fun _ => true }

/-- A world where every GET fails at the transport layer and the
filesystem refuses everything. -/
def failEnv : WorldEnv :=
  { fetch := fun _ _ => .error "connection refused",
    createOk := fun _ => false, copyOk := fun _ => false }

/-- A `204 No Content` success-class response. -/
def resp204 : Response :=
  { statusCode := 204, status := "204 No Content", xGoPprof := "",
    contentType := "", readAllOk := true, body := "" }

/-- A world that answers every GET with `resp204`. -/
def env204 : WorldEnv :=
  { fetch := fun _ _ => .ok resp204,
    createOk := fun _ => true, copyOk := fun _ => true }

/-- The spec's pprof-style 500 response: marker header set, plain
text, body `out of memory`. -/
def resp500 : Response :=
  { statusCode := 500, status := "500 Internal Server Error", xGoPprof := "1",
    contentType := "text/plain; charset=utf-8", readAllOk := true,
    body := "out of memory" }

/-! ## Helper lemmas -/

theorem requestsOf_append (a b : List Event) :
    requestsOf (a ++ b) = requestsOf a ++ requestsOf b :=
  List.filterMap_append a b _

theorem requestTimeoutsOf_append (a b : List Event) :
    requestTimeoutsOf (a ++ b) = requestTimeoutsOf a ++ requestTimeoutsOf b :=
  List.filterMap_append a b _

theorem writesOf_append (a b : List Event) :
    writesOf (a ++ b) = writesOf a ++ writesOf b :=
  List.filterMap_append a b _

/-- Both collectors run the same (duplicated) normalisation text. -/
theorem normalizeAgree (addr : String) :
    profilesNormalize addr = metricsNormalize addr := rfl

/-- A single `saveDebug` call performs exactly one request, to its
source URL, with the computed client timeout. -/
theorem saveDebug_requestTimeouts (env : WorldEnv) (s f : String) (d : Int) :
    requestTimeoutsOf (saveDebug env s f d).1 = [(s, clientTimeout d)] := by
  rcases hf : env.fetch s (clientTimeout d) with e | resp
  · simp [saveDebug, fetchURL, hf, requestTimeoutsOf]
  · by_cases h : resp.statusCode = 200 <;>
      by_cases hc : env.createOk f <;>
        by_cases hw : env.copyOk f <;>
          simp [saveDebug, fetchURL, hf, h, hc, hw, requestTimeoutsOf]

/-- A single `saveDebug` call requests exactly its source URL. -/
theorem saveDebug_requests (env : WorldEnv) (s f : String) (d : Int) :
    requestsOf (saveDebug env s f d).1 = [s] := by
  rcases hf : env.fetch s (clientTimeout d) with e | resp
  · simp [saveDebug, fetchURL, hf, requestsOf]
  · by_cases h : resp.statusCode = 200 <;>
      by_cases hc : env.createOk f <;>
        by_cases hw : env.copyOk f <;>
          simp [saveDebug, fetchURL, hf, h, hc, hw, requestsOf]

/-- The profile loop requests one URL per profile name, in order. -/
theorem saveProfilesLoop_requests (env : WorldEnv) (base pathPrefix : String)
    (d : Int) (names : List String) :
    requestsOf (saveProfilesLoop env base pathPrefix d names) =
      names.map (fun t => profileSource base t d) := by
  induction names with
  | nil => rfl
  | cons t rest ih =>
    simp [saveProfilesLoop, requestsOf_append, saveDebug_requests, ih]

/-- The metric loop requests one URL per metric name, in order. -/
theorem saveMetricsLoop_requests (env : WorldEnv) (base pathPrefix : String)
    (d : Int) (names : List String) :
    requestsOf (saveMetricsLoop env base pathPrefix d names) =
      names.map (fun t => metricSource base t) := by
  induction names with
  | nil => rfl
  | cons t rest ih =>
    simp [saveMetricsLoop, requestsOf_append, saveDebug_requests, ih]

/-! ## Claim C1 — the fallback condition of address normalisation -/

/-- C1 (counterexample): the claim says the fallback fires whenever the
parsed URL has no host and *either no scheme or* a scheme other than
`file`, and that every address lacking scheme and host retries and then
parses successfully.  The bare name `"foo"` parses to a URL with no
host and no scheme, so the claim's condition holds, yet the code's
condition (`u.Scheme != ""`) is false: no retry happens and the
address is rejected outright. -/
theorem C1_counterexample :
    specRetryCondition "foo" = true ∧
    profilesRetries "foo" = false ∧
    goUrlParse "foo" = Except.ok { path := "foo" } ∧
    profilesNormalize "foo" = none :=
  ⟨by decide, by decide, rfl, by decide⟩

/-- C1 (amended): normalisation retries with `http://` prepended if
and only if the initial parse fails, or the parsed URL has no host and
a *nonempty* scheme other than `file`; when it retries the final
result is the finish step applied to the reparse, otherwise to the
original parse.  (An address that parses with neither scheme nor host
does not trigger the fallback and is rejected.) -/
theorem C1_fallback_condition (addr : String) :
    (profilesRetries addr = true ↔
      (∃ e, goUrlParse addr = Except.error e) ∨
      (∃ u, goUrlParse addr = Except.ok u ∧ u.host = "" ∧ u.scheme ≠ "" ∧ u.scheme ≠ "file")) ∧
    (profilesRetries addr = true →
      profilesNormalize addr = normFinish (goUrlParse ("http://" ++ addr))) ∧
    (profilesRetries addr = false →
      profilesNormalize addr = normFinish (goUrlParse addr)) := by
  rcases h : goUrlParse addr with e | u
  · refine ⟨by simp [profilesRetries, h], fun _ => ?_, fun hfalse => ?_⟩
    · simp only [profilesNormalize, h]
      rfl
    · simp [profilesRetries, h] at hfalse
  · refine ⟨by simp [profilesRetries, h, and_assoc], fun htrue => ?_, fun hfalse => ?_⟩
    · simp only [profilesRetries, h] at htrue
      simp only [profilesNormalize, h, htrue, if_true]
      rfl
    · simp only [profilesRetries, h] at hfalse
      simp only [profilesNormalize, h, hfalse, if_false]
      rfl

/-- C1 witness: `"localhost:8080"` (host-looking, but its colon makes
`localhost` parse as a scheme) does trigger the fallback and
normalises to base `http://localhost:8080`. -/
theorem C1_fallback_condition_witness :
    profilesRetries "localhost:8080" = true ∧
    profilesNormalize "localhost:8080" = normFinish (goUrlParse "http://localhost:8080") ∧
    (profilesNormalize "localhost:8080").map URL.render = some "http://localhost:8080" :=
  ⟨by decide, (C1_fallback_condition "localhost:8080").2.1 (by decide), by decide⟩

/-! ## Claim C2 — per-endpoint failures do not abort the batch -/

/-- C2: whatever the world does (including failing every fetch and
every file operation), each batch call attempts every endpoint of its
list, in order, issuing exactly one request per name; the Go functions
have no return value, so the batch reports no error to its caller (the
models return only the event trace). -/
theorem C2_batch_attempts_all (env : WorldEnv) (addr pathPrefix : String) (duration : Int)
    (ps ms : List String) (u : URL)
    (h : profilesNormalize addr = some u) :
    requestsOf (saveProfiles env addr pathPrefix duration ps) =
      ps.map (fun t => profileSource u.render t duration) ∧
    requestsOf (saveMetrics env addr pathPrefix duration ms) =
      ms.map (fun t => metricSource u.render t) := by
  have h2 : metricsNormalize addr = some u := (normalizeAgree addr) ▸ h
  constructor
  · simp [saveProfiles, h, saveProfilesLoop_requests]
  · simp [saveMetrics, h2, saveMetricsLoop_requests]

/-- C2 witness: in a world where every GET fails at the transport
layer, both endpoints of a profile batch and the endpoint of a metric
batch are still attempted, in order. -/
theorem C2_batch_attempts_all_witness :
    requestsOf (saveProfiles failEnv "host:1" "/tmp/d-" 0 ["heap", "goroutine"]) =
      ["http://host:1/debug/pprof/heap?duration=0",
       "http://host:1/debug/pprof/goroutine?duration=0"] ∧
    requestsOf (saveMetrics failEnv "host:1" "/tmp/d-" 0 ["health"]) =
      ["http://host:1/health"] :=
  C2_batch_attempts_all failEnv "host:1" "/tmp/d-" 0 ["heap", "goroutine"] ["health"]
    { scheme := "http", host := "host:1" } (by decide)

/-! ## Claim C3 — an unusable address skips the whole batch -/

/-- C3: when normalisation rejects the address (parse failure even
after the fallback, or no host in the result), both batch calls
produce an empty trace: zero requests and zero file writes. -/
theorem C3_bad_address_skips_all (env : WorldEnv) (addr pathPrefix : String) (duration : Int)
    (ps ms : List String)
    (h : profilesNormalize addr = none) :
    saveProfiles env addr pathPrefix duration ps = [] ∧
    saveMetrics env addr pathPrefix duration ms = [] ∧
    requestsOf (saveProfiles env addr pathPrefix duration ps) = [] ∧
    writesOf (saveProfiles env addr pathPrefix duration ps) = [] ∧
    requestsOf (saveMetrics env addr pathPrefix duration ms) = [] ∧
    writesOf (saveMetrics env addr pathPrefix duration ms) = [] := by
  have h2 : metricsNormalize addr = none := (normalizeAgree addr) ▸ h
  simp [saveProfiles, saveMetrics, h, h2, requestsOf, writesOf]

/-- C3 witness: the empty address is rejected (it parses to a URL with
no host and no scheme, so not even the fallback fires), and with a
fully cooperative world neither batch call does anything. -/
theorem C3_bad_address_skips_all_witness :
    saveProfiles happyEnv "" "/tmp/d-" 0 pprofProfileTypes = [] ∧
    saveMetrics happyEnv "" "/tmp/d-" 0 metricTypes = [] ∧
    requestsOf (saveProfiles happyEnv "" "/tmp/d-" 0 pprofProfileTypes) = [] ∧
    writesOf (saveProfiles happyEnv "" "/tmp/d-" 0 pprofProfileTypes) = [] ∧
    requestsOf (saveMetrics happyEnv "" "/tmp/d-" 0 metricTypes) = [] ∧
    writesOf (saveMetrics happyEnv "" "/tmp/d-" 0 metricTypes) = [] :=
  C3_bad_address_skips_all happyEnv "" "/tmp/d-" 0 pprofProfileTypes metricTypes (by decide)

/-! ## Claim C4 — resource release in `saveDebug` -/

/-- C4: on a fully successful `saveDebug` call the response body is
opened and closed (the `defer resp.Close()`), but the output file
created by `os.Create` is opened and never closed — `saveDebug` has no
`out.Close()` on any path — so the claim that both resources are
released before the call returns fails on the code. -/
theorem C4_output_file_never_closed :
    (saveDebug happyEnv "http://host:1/debug/pprof/heap?duration=0" "/tmp/d-heap.gz" 0).2 = none ∧
    Event.openFile "/tmp/d-heap.gz" ∈
      (saveDebug happyEnv "http://host:1/debug/pprof/heap?duration=0" "/tmp/d-heap.gz" 0).1 ∧
    Event.closeFile "/tmp/d-heap.gz" ∉
      (saveDebug happyEnv "http://host:1/debug/pprof/heap?duration=0" "/tmp/d-heap.gz" 0).1 ∧
    ((saveDebug happyEnv "http://host:1/debug/pprof/heap?duration=0" "/tmp/d-heap.gz" 0).1.count
        Event.openBody =
      (saveDebug happyEnv "http://host:1/debug/pprof/heap?duration=0" "/tmp/d-heap.gz" 0).1.count
        Event.closeBody) ∧
    allReleased
        (saveDebug happyEnv "http://host:1/debug/pprof/heap?duration=0" "/tmp/d-heap.gz" 0).1 =
      false := by
  decide

/-! ## Claim C5 — which statuses count as errors -/

/-- C5 (counterexample): `204 No Content` is a 2xx success status, yet
`fetchURL` (which tests `StatusCode != http.StatusOK`, i.e. `!= 200`)
reports a status error for it. -/
theorem C5_counterexample :
    (200 ≤ resp204.statusCode ∧ resp204.statusCode < 300) ∧
    (fetchURL env204 "http://host:1/health" (clientTimeout 0)).2 =
      Except.error "server response: 204 No Content" :=
  ⟨by decide, rfl⟩

/-- C5 (amended): `fetchURL` reports an HTTP status error exactly when
the status code differs from `200` (any other code, 2xx included, is
an error); on such an error `saveDebug` creates no output file and
writes nothing; a `200` response is passed through as success. -/
theorem C5_status_error_iff_not_200 (env : WorldEnv) (s f : String) (d : Int) (resp : Response)
    (h : env.fetch s (clientTimeout d) = Except.ok resp) :
    ((fetchURL env s (clientTimeout d)).2 = Except.error (statusCodeError resp) ↔
      resp.statusCode ≠ 200) ∧
    (resp.statusCode ≠ 200 →
      (saveDebug env s f d).1 =
        [Event.request s (clientTimeout d), Event.openBody, Event.closeBody] ∧
      createsOf (saveDebug env s f d).1 = [] ∧
      writesOf (saveDebug env s f d).1 = []) ∧
    (resp.statusCode = 200 →
      (fetchURL env s (clientTimeout d)).2 = Except.ok resp.body) := by
  by_cases h200 : resp.statusCode = 200
  · refine ⟨?_, fun hne => absurd h200 hne, fun _ => ?_⟩
    · simp [fetchURL, h, h200]
    · simp [fetchURL, h, h200]
  · refine ⟨?_, fun _ => ?_, fun heq => absurd heq h200⟩
    · simp [fetchURL, h, h200]
    · refine ⟨?_, ?_, ?_⟩ <;> simp [saveDebug, fetchURL, h, h200, createsOf, writesOf]

/-- C5 witness: at the `204` world, the per-endpoint trace is exactly
request/open/close with no file created and nothing written. -/
theorem C5_status_error_iff_not_200_witness :
    (saveDebug env204 "http://host:1/health" "/tmp/d-health.gz" 0).1 =
      [Event.request "http://host:1/health" (clientTimeout 0), Event.openBody, Event.closeBody] ∧
    createsOf (saveDebug env204 "http://host:1/health" "/tmp/d-health.gz" 0).1 = [] ∧
    writesOf (saveDebug env204 "http://host:1/health" "/tmp/d-health.gz" 0).1 = [] :=
  (C5_status_error_iff_not_200 env204 "http://host:1/health" "/tmp/d-health.gz" 0 resp204
    rfl).2.1 (by decide)

/-! ## Claim C6 — request URL shapes -/

/-- C6: the profile request URL is
`<base>/debug/pprof/<name>?duration=<whole seconds>` and the metric
request URL is `<base>/<name>` with no query; for the address
`"host:1"` the normalised base renders as `http://host:1`, the
`health` metric URL is `http://host:1/health`, and the `heap` profile
URL at duration 5 s is `http://host:1/debug/pprof/heap?duration=5` —
verified end-to-end through the batch calls. -/
theorem C6_request_url_shapes :
    (∀ base name d, profileSource base name d =
      base ++ "/debug/pprof/" ++ name ++ "?duration=" ++ toString (durationSeconds d)) ∧
    (∀ base name, metricSource base name = base ++ "/" ++ name) ∧
    (profilesNormalize "host:1").map URL.render = some "http://host:1" ∧
    requestsOf (saveMetrics happyEnv "host:1" "/tmp/d-" 0 ["health"]) = ["http://host:1/health"] ∧
    requestsOf (saveProfiles happyEnv "host:1" "/tmp/d-" (5 * second) ["heap"]) =
      ["http://host:1/debug/pprof/heap?duration=5"] :=
  ⟨fun _ _ _ => rfl, fun _ _ => rfl, by decide, by decide, by decide⟩

/-! ## Claim C7 — the client timeout -/

/-- C7: the one request a `saveDebug` call performs carries the
timeout `d + d/2 + 2` seconds (division truncating, as Go's), for any
requested duration `d ≥ 0`. -/
theorem C7_client_timeout (env : WorldEnv) (s f : String) (d : Int) (_h : 0 ≤ d) :
    requestTimeoutsOf (saveDebug env s f d).1 = [(s, d + Int.tdiv d 2 + 2 * second)] :=
  saveDebug_requestTimeouts env s f d

/-- C7 witness: for a requested duration of 10 s the request goes out
with a 17 s timeout. -/
theorem C7_client_timeout_witness :
    (0 : Int) ≤ 10 * second ∧
    requestTimeoutsOf
        (saveDebug happyEnv "http://host:1/health" "/tmp/d-health.gz" (10 * second)).1 =
      [("http://host:1/health", 17 * second)] :=
  ⟨by decide,
   C7_client_timeout happyEnv "http://host:1/health" "/tmp/d-health.gz" (10 * second) (by decide)⟩

/-! ## Claim C8 — bytes written verbatim -/

/-- C8: on a successful fetch (status 200, file created, copy
completed) the only write `saveDebug` performs carries exactly the
response body, unchanged — no compression or other transformation,
`.gz` name notwithstanding — and the call returns without error. -/
theorem C8_bytes_roundtrip (env : WorldEnv) (s f : String) (d : Int) (resp : Response)
    (h1 : env.fetch s (clientTimeout d) = Except.ok resp)
    (h2 : resp.statusCode = 200)
    (h3 : env.createOk f = true)
    (h4 : env.copyOk f = true) :
    writesOf (saveDebug env s f d).1 = [(f, resp.body)] ∧
    (saveDebug env s f d).2 = none := by
  constructor <;> simp [saveDebug, fetchURL, h1, h2, h3, h4, writesOf]

/-- C8 witness: the happy world's body `PROFILEDATA` lands in the
`.gz` file byte for byte. -/
theorem C8_bytes_roundtrip_witness :
    writesOf (saveDebug happyEnv "http://host:1/debug/pprof/heap?duration=0" "/tmp/d-heap.gz" 0).1 =
      [("/tmp/d-heap.gz", "PROFILEDATA")] ∧
    (saveDebug happyEnv "http://host:1/debug/pprof/heap?duration=0" "/tmp/d-heap.gz" 0).2 = none :=
  C8_bytes_roundtrip happyEnv "http://host:1/debug/pprof/heap?duration=0" "/tmp/d-heap.gz" 0
    okResponse rfl rfl rfl rfl

/-! ## Claim C9 — status-error message enrichment -/

/-- C9: the status-error message carries the full response body
exactly when the `X-Go-Pprof` header is set, the content type contains
`text/plain`, and the body read succeeds; in every other case it is
the bare status line. -/
theorem C9_error_enrichment (resp : Response) :
    (resp.xGoPprof ≠ "" ∧ strContains resp.contentType "text/plain" = true ∧
        resp.readAllOk = true →
      statusCodeError resp = "server response: " ++ resp.status ++ " - " ++ resp.body) ∧
    (¬(resp.xGoPprof ≠ "" ∧ strContains resp.contentType "text/plain" = true ∧
        resp.readAllOk = true) →
      statusCodeError resp = "server response: " ++ resp.status) := by
  constructor
  · rintro ⟨ha, hb, hc⟩
    simp [statusCodeError, ha, hb, hc]
  · intro hn
    by_cases hm : (resp.xGoPprof != "" && strContains resp.contentType "text/plain") = true
    · by_cases hr : resp.readAllOk = true
      · simp only [Bool.and_eq_true, bne_iff_ne, ne_eq] at hm
        exact absurd ⟨hm.1, hm.2, hr⟩ hn
      · simp [statusCodeError, hm, hr]
    · simp [statusCodeError, hm]

/-- C9 witness: the spec's pprof-style 500 response produces the
enriched `out of memory` message. -/
theorem C9_error_enrichment_witness :
    resp500.xGoPprof ≠ "" ∧ strContains resp500.contentType "text/plain" = true ∧
    resp500.readAllOk = true ∧
    statusCodeError resp500 = "server response: 500 Internal Server Error - out of memory" :=
  ⟨by decide, by decide, by decide, (C9_error_enrichment resp500).1 ⟨by decide, by decide, by decide⟩⟩

/-! ## Claim C10 — the duplicated normalisation logic agrees -/

/-- C10: the address normalisation duplicated in `saveProfiles` and
`saveMetrics` is the same function: both accept exactly the same
addresses and produce the same normalised URL, hence the same rendered
base. -/
theorem C10_normalization_identical (addr : String) :
    profilesNormalize addr = metricsNormalize addr ∧
    (profilesNormalize addr).map URL.render = (metricsNormalize addr).map URL.render :=
  ⟨normalizeAgree addr, by rw [normalizeAgree addr]⟩

end Debuginfo
